import Mathlib

/-!
Product form controller (service/static/js/rest_api.js)

A shallow embedding of the jQuery controller that binds the Product form to the
REST service, and the properties of it that the specification states.

Modelling conventions.

* A JavaScript string is a Lean `String`; concatenation is `++`, the empty string is `""`.
* The page is a record of text slots.  Each of the eleven inputs `#product_*` is a
  single-line text input, and its slot holds the string that `.val()` returns.  The call
  `.val(v)` takes jQuery's text for `v` (the empty string for `undefined` and `null`, the
  string itself for a string); the input keeps it without its line feeds and carriage
  returns, so that is what `.val()` returns afterwards.
* `#flash_message` and `#search_results` are slots holding the markup given to the
  element: `.empty()` resets the slot and `.append(s)` adds `s` at its end.  The slot of
  `#search_results` is the markup as the handler wrote it; the browser parses it after
  that.
* A handler that can throw returns the completion together with the page it leaves
  behind, so the writes made before the throw stay visible.
-/

namespace RestApi

/-! ## Values and page state -/

/-- Value of an attribute of a JSON response object: absent (`undefined`), `null`, or a string. -/
inductive JSVal where
  | undefined : JSVal
  | null : JSVal
  | str (s : String) : JSVal
  deriving DecidableEq, Repr

/-- A response object, seen through the eleven attributes the controller reads. -/
structure ProductObj where
  id : JSVal
  name : JSVal
  desc : JSVal
  price : JSVal
  category : JSVal
  inventory : JSVal
  discount : JSVal
  like : JSVal
  created_date : JSVal
  modified_date : JSVal
  deleted_date : JSVal
  deriving DecidableEq, Repr

/-- A Product of the data model: eleven string fields. -/
structure Product where
  id : String
  name : String
  desc : String
  price : String
  category : String
  inventory : String
  discount : String
  like : String
  created_date : String
  modified_date : String
  deleted_date : String
  deriving DecidableEq, Repr

/-- The response object all of whose attributes are the strings of `p`. -/
def Product.toObj (p : Product) : ProductObj :=
  { id := .str p.id, name := .str p.name, desc := .str p.desc, price := .str p.price,
    category := .str p.category, inventory := .str p.inventory, discount := .str p.discount,
    like := .str p.like, created_date := .str p.created_date,
    modified_date := .str p.modified_date, deleted_date := .str p.deleted_date }

/-- The eleven inputs of the form, named by their element ids. -/
structure Form where
  product_id : String
  product_name : String
  product_desc : String
  product_price : String
  product_category : String
  product_inventory : String
  product_discount : String
  product_like : String
  product_created_date : String
  product_modified_date : String
  product_deleted_date : String
  deriving DecidableEq, Repr

/-- The page: the form, the flash area and the search result area. -/
structure Page where
  form : Form
  flash_message : String
  search_results : String
  deriving DecidableEq, Repr

/-- Text that `.val(v)` hands to the input: jQuery turns `undefined` and `null` into the
empty string. -/
def valText : JSVal → String
  | .undefined => ""
  | .null => ""
  | .str s => s

/-- Characters a single-line text input keeps: all but line feed and carriage return. -/
def keptChar (ch : Char) : Bool := ch != '\n' && ch != '\r'

/-- What a single-line text input holds, as `.val()` reads it, after the string `s` was
set as its value: `s` without its line feeds and carriage returns. -/
def inputText (s : String) : String := String.mk (s.toList.filter keptChar)

/-- The call `.val(v)` on an input: the content of its slot afterwards. -/
def val_set (v : JSVal) : String := inputText (valText v)

/-- A string without line feed and carriage return. -/
def singleLine (s : String) : Bool := s.toList.all keptChar

/-- Text that a template literal substitutes for `v` (ToString). -/
def jsToString : JSVal → String
  | .undefined => "undefined"
  | .null => "null"
  | .str s => s

/-- Truthiness of a string: every string but the empty one. -/
def truthy (s : String) : Bool := s != ""

/-! ## Utility functions (lines 8-41) -/

/-- Lines 8-20: updates the form with data from the response. -/
def update_form_data (res : ProductObj) (pg : Page) : Page :=
  let f := pg.form
  let f := { f with product_id := val_set res.id }
  let f := { f with product_name := val_set res.name }
  let f := { f with product_desc := val_set res.desc }
  let f := { f with product_price := val_set res.price }
  let f := { f with product_category := val_set res.category }
  let f := { f with product_inventory := val_set res.inventory }
  let f := { f with product_discount := val_set res.discount }
  let f := { f with product_like := val_set res.like }
  let f := { f with product_created_date := val_set res.created_date }
  let f := { f with product_modified_date := val_set res.modified_date }
  let f := { f with product_deleted_date := val_set res.deleted_date }
  { pg with form := f }

/-- Outcome of running a handler body: it ran to its end, or it threw. -/
inductive Completion where
  | normal : Completion
  | referenceError (ident : String) : Completion
  deriving DecidableEq, Repr

/-- Lines 22-35: `clear_form_data`.  Its first statement reads the free identifier `res`
(line 24); `resBinding` is what that identifier resolves to from the body of
`clear_form_data`.  The function has no parameter and the enclosing ready-callback
declares no variable `res`, so the file itself leaves it unbound (`none`) and only a
global of that name could supply `some`.  Unbound, evaluating `res.id` throws a
ReferenceError before any field is written. -/
def clear_form_data (resBinding : Option ProductObj) (pg : Page) : Completion × Page :=
  match resBinding with
  | none => (.referenceError "res", pg)
  | some res =>
    let f := pg.form
    let f := { f with product_id := val_set res.id }
    let f := { f with product_name := val_set (.str "") }
    let f := { f with product_desc := val_set (.str "") }
    let f := { f with product_price := val_set (.str "") }
    let f := { f with product_category := val_set (.str "") }
    let f := { f with product_inventory := val_set (.str "") }
    let f := { f with product_discount := val_set (.str "") }
    let f := { f with product_like := val_set (.str "") }
    let f := { f with product_created_date := val_set (.str "") }
    let f := { f with product_modified_date := val_set (.str "") }
    let f := { f with product_deleted_date := val_set (.str "") }
    (.normal, { pg with form := f })

/-- The call `$("#flash_message").empty()`. -/
def flash_empty (pg : Page) : Page := { pg with flash_message := "" }

/-- The call `$("#flash_message").append(message)`. -/
def flash_append (message : String) (pg : Page) : Page :=
  { pg with flash_message := pg.flash_message ++ message }

/-- Lines 38-41: updates the flash message area. -/
def flash_message (message : String) (pg : Page) : Page :=
  flash_append message (flash_empty pg)

/-! ## Search: query string (lines 216-238) -/

/-- Lines 220-238: the query string built from the three filter values. -/
def queryString (name category price : String) : String :=
  let queryString := ""
  let queryString := if truthy name then queryString ++ ("name=" ++ name) else queryString
  let queryString :=
    if truthy category then
      if queryString.length > 0 then queryString ++ ("&category=" ++ category)
      else queryString ++ ("category=" ++ category)
    else queryString
  let queryString :=
    if truthy price then
      if queryString.length > 0 then queryString ++ ("&price=" ++ price)
      else queryString ++ ("price=" ++ price)
    else queryString
  queryString

/-- Lines 216-218 and 244: the URL the search handler requests for the current form. -/
def search_url (pg : Page) : String :=
  let name := pg.form.product_name
  let category := pg.form.product_category
  let price := pg.form.product_price
  "/products?" ++ queryString name category price

/-- The claimed shape of the query string: the pairs `key=value` of the keys with a
non-empty value, in the order name, category, price, joined by `&`. -/
def joinedPairs (name category price : String) : String :=
  "&".intercalate
    (([("name", name), ("category", category), ("price", price)].filter
        (fun kv => kv.2 != "")).map (fun kv => kv.1 ++ "=" ++ kv.2))

/-- Splitting a query string on `&`. -/
def pieces (q : String) : List (List Char) := q.toList.splitOn '&'

/-- The part of a piece before its first `=`. -/
def keyOf (piece : List Char) : List Char := piece.takeWhile (fun ch => ch != '=')

/-- The part of a piece after its first `=`. -/
def valueOf (piece : List Char) : List Char := (piece.dropWhile (fun ch => ch != '=')).drop 1

/-- The value a query string gives to `key`: that of the first piece with this key, and
the empty string when no piece has it. -/
def lookupFilter (key : String) (q : String) : String :=
  match (pieces q).find? (fun piece => keyOf piece == key.toList) with
  | some piece => String.mk (valueOf piece)
  | none => ""

/-- The filter triple read back from a query string. -/
def parseQuery (q : String) : String × String × String :=
  (lookupFilter "name" q, lookupFilter "category" q, lookupFilter "price" q)

/-! ## Requests -/

/-- An object literal with string values: its properties in source order. -/
abbrev JSObject := List (String × String)

/-- The settings object handed to `$.ajax`.  `data` is the object given to
`JSON.stringify`, or `none` where the source passes the empty string. -/
structure AjaxSettings where
  type : String
  url : String
  data : Option JSObject
  deriving DecidableEq, Repr

/-- Lines 49-69: the object `data` the create handler builds from the form. -/
def create_data (pg : Page) : JSObject :=
  let product_id := pg.form.product_id
  let name := pg.form.product_name
  let desc := pg.form.product_desc
  let price := pg.form.product_price
  let category := pg.form.product_category
  let inventory := pg.form.product_inventory
  let discount := pg.form.product_discount
  let like := pg.form.product_like
  let created_date := pg.form.product_created_date
  [("id", product_id), ("name", name), ("desc", desc), ("price", price),
   ("category", category), ("inventory", inventory), ("discount", discount),
   ("like", like), ("created_date", created_date)]

/-- Lines 47-78: the create click handler up to the dispatch of the request. -/
def create_click (pg : Page) : AjaxSettings × Page :=
  let data := create_data pg
  let pg := flash_empty pg
  ({ type := "POST", url := "/products", data := some data }, pg)

/-- Lines 80-83: completion of a successful create. -/
def create_done (res : ProductObj) (pg : Page) : Page :=
  flash_message "Success" (update_form_data res pg)

/-- Lines 97-121: the object `data` the update handler builds from the form. -/
def update_data (pg : Page) : JSObject :=
  let product_id := pg.form.product_id
  let name := pg.form.product_name
  let desc := pg.form.product_desc
  let price := pg.form.product_price
  let category := pg.form.product_category
  let inventory := pg.form.product_inventory
  let discount := pg.form.product_discount
  let like := pg.form.product_like
  let created_date := pg.form.product_created_date
  let modified_date := pg.form.product_modified_date
  let deleted_date := pg.form.product_deleted_date
  [("id", product_id), ("name", name), ("desc", desc), ("price", price),
   ("category", category), ("inventory", inventory), ("discount", discount),
   ("like", like), ("created_date", created_date), ("modified_date", modified_date),
   ("deleted_date", deleted_date)]

/-- The object literal that lists the eleven fields of a Product in the same order. -/
def Product.toData (p : Product) : JSObject :=
  [("id", p.id), ("name", p.name), ("desc", p.desc), ("price", p.price),
   ("category", p.category), ("inventory", p.inventory), ("discount", p.discount),
   ("like", p.like), ("created_date", p.created_date), ("modified_date", p.modified_date),
   ("deleted_date", p.deleted_date)]

/-- The eleven Product fields, each with the form input that holds it. -/
def formFields (f : Form) : JSObject :=
  [("id", f.product_id), ("name", f.product_name), ("desc", f.product_desc),
   ("price", f.product_price), ("category", f.product_category),
   ("inventory", f.product_inventory), ("discount", f.product_discount),
   ("like", f.product_like), ("created_date", f.product_created_date),
   ("modified_date", f.product_modified_date), ("deleted_date", f.product_deleted_date)]

/-- The failure argument of a handler: a response without a parseable body, or one
whose JSON body has the given `message` attribute. -/
inductive ErrorResponse where
  | noBody : ErrorResponse
  | body (message : JSVal) : ErrorResponse
  deriving DecidableEq, Repr

/-- Lines 190-193: completion of a successful delete.  The parameter `res` of the handler
is local to the handler: `clear_form_data` is declared outside it and does not see it,
so the handler leaves it unread and `resBinding` is passed on as it is. -/
def delete_done (resBinding : Option ProductObj) (_res : JSVal) (pg : Page) :
    Completion × Page :=
  match clear_form_data resBinding pg with
  | (.normal, pg) => (.normal, flash_message "Product has been Deleted!" pg)
  | (thrown, pg) => (thrown, pg)

/-- Lines 195-197: completion of a failed delete. -/
def delete_fail (_res : ErrorResponse) (pg : Page) : Page :=
  flash_message "Server error!" pg

/-! ## Search: rendering (lines 249-278) -/

/-- Value of the variable `firstProduct`: the initial empty string or an element of the
response. -/
inductive FirstProduct where
  | str (s : String) : FirstProduct
  | obj (product : ProductObj) : FirstProduct
  deriving DecidableEq, Repr

/-- The test `firstProduct != ""`: a string is compared as such, an object through its
primitive text `[object Object]`. -/
def neEmptyString : FirstProduct → Bool
  | .str s => s != ""
  | .obj _ => "[object Object]" != ""

/-- The attributes `update_form_data` reads from `firstProduct`; a string has none of them. -/
def FirstProduct.attrs : FirstProduct → ProductObj
  | .obj product => product
  | .str _ =>
    { id := .undefined, name := .undefined, desc := .undefined, price := .undefined,
      category := .undefined, inventory := .undefined, discount := .undefined,
      like := .undefined, created_date := .undefined, modified_date := .undefined,
      deleted_date := .undefined }

/-- Lines 252-260: the markup before the rows. -/
def table_head : String :=
  let table := "<table class=\"table table-striped\" cellpadding=\"10\">"
  let table := table ++ "<thead><tr>"
  let table := table ++ "<th class=\"col-md-2\">ID</th>"
  let table := table ++ "<th class=\"col-md-2\">Name</th>"
  let table := table ++ "<th class=\"col-md-2\">Category</th>"
  let table := table ++ "<th class=\"col-md-2\">Available</th>"
  let table := table ++ "<th class=\"col-md-2\">Gender</th>"
  let table := table ++ "<th class=\"col-md-2\">Birthday</th>"
  let table := table ++ "</tr></thead><tbody>"
  table

/-- Line 264: the template literal of one row. -/
def row_text (i : Nat) (product : ProductObj) : String :=
  "<tr id=\"row_" ++ toString i ++ "\"><td>" ++ jsToString product.id ++
  "</td><td>" ++ jsToString product.name ++
  "</td>td>" ++ jsToString product.desc ++
  "</td>td>" ++ jsToString product.price ++
  "</td><td>" ++ jsToString product.category ++
  "</td><td>" ++ jsToString product.inventory ++
  "</td><td>" ++ jsToString product.discount ++
  "</td><td>" ++ jsToString product.like ++
  "</td>td>" ++ jsToString product.created_date ++
  "</td>td>" ++ jsToString product.modified_date ++
  "</td>td>" ++ jsToString product.deleted_date ++ "</td></tr>"

/-- Lines 262-268: the loop, from index `i` with the current `table` and `firstProduct`. -/
def search_loop (res : List ProductObj) (i : Nat) (table : String)
    (firstProduct : FirstProduct) : String × FirstProduct :=
  if h : i < res.length then
    let product := res[i]
    let table := table ++ row_text i product
    let firstProduct := if i == 0 then FirstProduct.obj product else firstProduct
    search_loop res (i + 1) table firstProduct
  else
    (table, firstProduct)
termination_by res.length - i

/-- Lines 249-278: completion of a successful search. -/
def search_done (res : List ProductObj) (pg : Page) : Page :=
  let pg := { pg with search_results := "" }
  let table := table_head
  let firstProduct := FirstProduct.str ""
  let (table, firstProduct) := search_loop res 0 table firstProduct
  let table := table ++ "</tbody></table>"
  let pg := { pg with search_results := pg.search_results ++ table }
  let pg := if neEmptyString firstProduct then update_form_data firstProduct.attrs pg else pg
  flash_message "Success" pg

/-- The text of the eleven attributes of a response object, in Product field order. -/
def fieldTexts (p : ProductObj) : List String :=
  [jsToString p.id, jsToString p.name, jsToString p.desc, jsToString p.price,
   jsToString p.category, jsToString p.inventory, jsToString p.discount, jsToString p.like,
   jsToString p.created_date, jsToString p.modified_date, jsToString p.deleted_date]

/-- A row as the claim describes it: the opening tag with id `row_i`, then eleven cells
holding the eleven values in Product field order. -/
def rowMarkup (i : Nat) (p : ProductObj) : String :=
  "<tr id=\"row_" ++ toString i ++ "\">" ++
    String.join ((fieldTexts p).map (fun v => "<td>" ++ v ++ "</td>")) ++ "</tr>"

/-- The table the claim describes for a response: the head, one row per record in the
order of the list, the foot. -/
def tableMarkup (res : List ProductObj) : String :=
  table_head ++ String.join (res.enum.map (fun ip => rowMarkup ip.1 ip.2)) ++
    "</tbody></table>"

/-- A record some of whose attributes may be absent. -/
structure SparseProduct where
  id : Option String
  name : Option String
  desc : Option String
  price : Option String
  category : Option String
  inventory : Option String
  discount : Option String
  like : Option String
  created_date : Option String
  modified_date : Option String
  deleted_date : Option String
  deriving DecidableEq, Repr

/-- The attribute of a response object for a possibly absent string. -/
def attrOf : Option String → JSVal
  | none => .undefined
  | some s => .str s

/-- The response object of a sparse record. -/
def SparseProduct.toObj (r : SparseProduct) : ProductObj :=
  { id := attrOf r.id, name := attrOf r.name, desc := attrOf r.desc, price := attrOf r.price,
    category := attrOf r.category, inventory := attrOf r.inventory,
    discount := attrOf r.discount, like := attrOf r.like,
    created_date := attrOf r.created_date, modified_date := attrOf r.modified_date,
    deleted_date := attrOf r.deleted_date }

/-- The eleven fields of a sparse record, an absent attribute giving the empty string. -/
def SparseProduct.fields (r : SparseProduct) : JSObject :=
  [("id", r.id.getD ""), ("name", r.name.getD ""), ("desc", r.desc.getD ""),
   ("price", r.price.getD ""), ("category", r.category.getD ""),
   ("inventory", r.inventory.getD ""), ("discount", r.discount.getD ""),
   ("like", r.like.getD ""), ("created_date", r.created_date.getD ""),
   ("modified_date", r.modified_date.getD ""), ("deleted_date", r.deleted_date.getD "")]

/-- An attribute that is absent or a string without line break. -/
def optSingleLine : Option String → Bool
  | none => true
  | some s => singleLine s

/-- No attribute of the sparse record holds a line break. -/
def SparseProduct.singleLine (r : SparseProduct) : Bool :=
  optSingleLine r.id && optSingleLine r.name && optSingleLine r.desc &&
    optSingleLine r.price && optSingleLine r.category && optSingleLine r.inventory &&
    optSingleLine r.discount && optSingleLine r.like && optSingleLine r.created_date &&
    optSingleLine r.modified_date && optSingleLine r.deleted_date

/-- No field of the Product holds a line break. -/
def Product.singleLine (p : Product) : Bool :=
  RestApi.singleLine p.id && RestApi.singleLine p.name && RestApi.singleLine p.desc &&
    RestApi.singleLine p.price && RestApi.singleLine p.category &&
    RestApi.singleLine p.inventory && RestApi.singleLine p.discount &&
    RestApi.singleLine p.like && RestApi.singleLine p.created_date &&
    RestApi.singleLine p.modified_date && RestApi.singleLine p.deleted_date

/-- A Product whose description has two lines. -/
def twoLineProduct : Product :=
  { id := "7", name := "Mug", desc := "line1\nline2", price := "4", category := "Kitchen",
    inventory := "12", discount := "0", like := "3", created_date := "2023-03-01",
    modified_date := "2023-04-01", deleted_date := "" }

/-- A Product all of whose fields are single-line strings. -/
def shirtProduct : Product :=
  { id := "1", name := "Shirt", desc := "cotton", price := "20", category := "Men",
    inventory := "5", discount := "0", like := "3", created_date := "2023-03-01",
    modified_date := "2023-04-01", deleted_date := "" }

/-- A sparse record with id, name and category only. -/
def shirtSparse : SparseProduct :=
  { id := some "1", name := some "Shirt", desc := none, price := none, category := some "Men",
    inventory := none, discount := none, like := none, created_date := none,
    modified_date := none, deleted_date := none }

/-- A sparse record with id and name only. -/
def mugSparse : SparseProduct :=
  { id := some "42", name := some "Mug", desc := none, price := none, category := none,
    inventory := none, discount := none, like := none, created_date := none,
    modified_date := none, deleted_date := none }

/-- The filter triples the non-injectivity example uses. -/
def tripleWithAmp : String × String × String := ("a&price=1", "", "")

/-- The triple that collides with `tripleWithAmp`. -/
def tripleSplit : String × String × String := ("a", "", "1")

/-- The query string of a triple. -/
def queryOf (t : String × String × String) : String := queryString t.1 t.2.1 t.2.2

/-- A page whose form holds a product named Mug, with the flash area emptied as the
click handlers leave it at dispatch. -/
def mugPage : Page :=
  { form :=
      { product_id := "7", product_name := "Mug", product_desc := "ceramic",
        product_price := "4", product_category := "Kitchen", product_inventory := "12",
        product_discount := "0", product_like := "3", product_created_date := "2023-03-01",
        product_modified_date := "2023-04-01", product_deleted_date := "" },
    flash_message := "",
    search_results := "" }

/-- A draft without id, and an earlier message still in the flash area. -/
def draftPage : Page :=
  { form :=
      { product_id := "", product_name := "Mug", product_desc := "", product_price := "",
        product_category := "", product_inventory := "", product_discount := "",
        product_like := "", product_created_date := "", product_modified_date := "",
        product_deleted_date := "" },
    flash_message := "Server error!",
    search_results := "" }

/-! ## Helper lemmas -/

/-- Length of the literal `name=`. -/
theorem length_name : "name=".length = 5 := by decide

/-- Length of the literal `category=`. -/
theorem length_category : "category=".length = 9 := by decide

/-- The literal `name=` splits into key and `=`. -/
theorem pair_name (v : String) : "name" ++ ("=" ++ v) = "name=" ++ v := by
  rw [← String.append_assoc]; rfl

/-- The literal `category=` splits into key and `=`. -/
theorem pair_category (v : String) : "category" ++ ("=" ++ v) = "category=" ++ v := by
  rw [← String.append_assoc]; rfl

/-- The literal `price=` splits into key and `=`. -/
theorem pair_price (v : String) : "price" ++ ("=" ++ v) = "price=" ++ v := by
  rw [← String.append_assoc]; rfl

/-- The literal `&category=` splits after the `&`. -/
theorem amp_category (v : String) : "&" ++ ("category=" ++ v) = "&category=" ++ v := by
  rw [← String.append_assoc]; rfl

/-- The literal `&price=` splits after the `&`. -/
theorem amp_price (v : String) : "&" ++ ("price=" ++ v) = "&price=" ++ v := by
  rw [← String.append_assoc]; rfl

/-- The loop-free form of the query string. -/
theorem queryString_eq_joinedPairs (name category price : String) :
    queryString name category price = joinedPairs name category price := by
  by_cases hn : name = "" <;> by_cases hc : category = "" <;> by_cases hp : price = "" <;>
    simp [queryString, joinedPairs, truthy, hn, hc, hp, String.intercalate,
      String.intercalate.go, length_name, length_category, String.append_assoc, pair_name,
      pair_category, pair_price, amp_category, amp_price]

/-- The flash area after `flash_message` holds the message alone. -/
theorem flash_message_slot (message : String) (pg : Page) :
    (flash_message message pg).flash_message = message := by
  simp [flash_message, flash_append, flash_empty]

/-- The function `flash_message` writes nothing but the flash area. -/
theorem flash_message_form (message : String) (pg : Page) :
    (flash_message message pg).form = pg.form := rfl

/-- The search result area is not touched by `flash_message`. -/
theorem flash_message_results (message : String) (pg : Page) :
    (flash_message message pg).search_results = pg.search_results := rfl

/-- The form after `update_form_data`, whatever it held before. -/
theorem update_form_data_form (res : ProductObj) (pg : Page) :
    (update_form_data res pg).form =
      { product_id := val_set res.id, product_name := val_set res.name,
        product_desc := val_set res.desc, product_price := val_set res.price,
        product_category := val_set res.category, product_inventory := val_set res.inventory,
        product_discount := val_set res.discount, product_like := val_set res.like,
        product_created_date := val_set res.created_date,
        product_modified_date := val_set res.modified_date,
        product_deleted_date := val_set res.deleted_date } := rfl

/-- A single-line text input keeps a string without line break as it is. -/
theorem inputText_of_singleLine (s : String) (h : singleLine s = true) : inputText s = s := by
  unfold inputText
  have hf : s.toList.filter keptChar = s.toList := by
    apply List.filter_eq_self.2
    intro a ha
    exact (List.all_eq_true.1 h) a ha
  rw [hf]
  rfl

/-- Writing a single-line string to an input stores the string. -/
theorem val_set_str (s : String) (h : singleLine s = true) : val_set (.str s) = s :=
  inputText_of_singleLine s h

/-- Writing a possibly absent single-line string stores it, or the empty string. -/
theorem val_set_attrOf (o : Option String) (h : optSingleLine o = true) :
    val_set (attrOf o) = o.getD "" := by
  cases o with
  | none => rfl
  | some s => exact inputText_of_singleLine s h

/-- The form fields after writing a sparse record without line breaks. -/
theorem formFields_update_sparse (r : SparseProduct) (pg : Page)
    (h : r.singleLine = true) :
    formFields (update_form_data r.toObj pg).form = r.fields := by
  simp only [SparseProduct.singleLine, Bool.and_eq_true] at h
  obtain ⟨⟨⟨⟨⟨⟨⟨⟨⟨⟨h1, h2⟩, h3⟩, h4⟩, h5⟩, h6⟩, h7⟩, h8⟩, h9⟩, h10⟩, h11⟩ := h
  simp only [update_form_data_form, formFields, SparseProduct.fields, SparseProduct.toObj,
    val_set_attrOf _ h1, val_set_attrOf _ h2, val_set_attrOf _ h3, val_set_attrOf _ h4,
    val_set_attrOf _ h5, val_set_attrOf _ h6, val_set_attrOf _ h7, val_set_attrOf _ h8,
    val_set_attrOf _ h9, val_set_attrOf _ h10, val_set_attrOf _ h11]

/-- The form fields after writing a Product without line breaks. -/
theorem formFields_update_product (p : Product) (pg : Page) (h : p.singleLine = true) :
    formFields (update_form_data p.toObj pg).form = p.toData := by
  simp only [Product.singleLine, Bool.and_eq_true] at h
  obtain ⟨⟨⟨⟨⟨⟨⟨⟨⟨⟨h1, h2⟩, h3⟩, h4⟩, h5⟩, h6⟩, h7⟩, h8⟩, h9⟩, h10⟩, h11⟩ := h
  simp only [update_form_data_form, formFields, Product.toData, Product.toObj,
    val_set_str _ h1, val_set_str _ h2, val_set_str _ h3, val_set_str _ h4,
    val_set_str _ h5, val_set_str _ h6, val_set_str _ h7, val_set_str _ h8,
    val_set_str _ h9, val_set_str _ h10, val_set_str _ h11]

/-- One iteration of the loop, while the index is inside the list. -/
theorem search_loop_step (res : List ProductObj) (i : Nat) (table : String)
    (firstProduct : FirstProduct) (h : i < res.length) :
    search_loop res i table firstProduct =
      search_loop res (i + 1) (table ++ row_text i res[i])
        (if i == 0 then FirstProduct.obj res[i] else firstProduct) := by
  rw [search_loop]
  simp [h]

/-- The loop ends once the index reaches the length of the list. -/
theorem search_loop_stop (res : List ProductObj) (i : Nat) (table : String)
    (firstProduct : FirstProduct) (h : ¬ i < res.length) :
    search_loop res i table firstProduct = (table, firstProduct) := by
  rw [search_loop]
  simp [h]

/-- Folding concatenation from `t` puts `t` in front of the joined list. -/
theorem join_append_init (l : List String) (t : String) :
    List.foldl (fun r s => r ++ s) t l = t ++ String.join l := by
  induction l generalizing t with
  | nil => simp [String.join]
  | cons a l ih =>
    simp only [String.join, List.foldl_cons]
    rw [ih, ih ("" ++ a)]
    simp [String.append_assoc]

/-- Joining a list of strings, one element at a time. -/
theorem join_cons (a : String) (l : List String) : String.join (a :: l) = a ++ String.join l := by
  simp only [String.join, List.foldl_cons]
  rw [join_append_init]
  simp [String.join]

/-- The loop from index `i` appends the rows of the records from `i` on, in order. -/
theorem search_loop_table (res : List ProductObj) (n i : Nat) (table : String)
    (firstProduct : FirstProduct) (hn : res.length - i = n) :
    (search_loop res i table firstProduct).1 =
      table ++ String.join (((res.drop i).enumFrom i).map (fun ip => row_text ip.1 ip.2)) := by
  induction n generalizing i table firstProduct with
  | zero =>
    rw [search_loop_stop res i table firstProduct (by omega)]
    rw [List.drop_eq_nil_of_le (by omega)]
    simp [String.join]
  | succ n ih =>
    have h : i < res.length := by omega
    rw [search_loop_step res i table firstProduct h, ih (i + 1) _ _ (by omega)]
    rw [List.drop_eq_getElem_cons h]
    simp only [List.enumFrom_cons, List.map_cons, join_cons, String.append_assoc]

/-- Past index 0 the loop keeps `firstProduct`. -/
theorem search_loop_first (res : List ProductObj) (n i : Nat) (table : String)
    (firstProduct : FirstProduct) (hn : res.length - i = n) (hi : 0 < i) :
    (search_loop res i table firstProduct).2 = firstProduct := by
  induction n generalizing i table firstProduct with
  | zero => rw [search_loop_stop res i table firstProduct (by omega)]
  | succ n ih =>
    have h : i < res.length := by omega
    rw [search_loop_step res i table firstProduct h, ih (i + 1) _ _ (by omega) (by omega)]
    have : i ≠ 0 := by omega
    simp [this]

/-- The result area after a successful search. -/
theorem search_done_results (res : List ProductObj) (pg : Page) :
    (search_done res pg).search_results =
      table_head ++ String.join (res.enum.map (fun ip => row_text ip.1 ip.2)) ++
        "</tbody></table>" := by
  have ht := search_loop_table res res.length 0 table_head (FirstProduct.str "") rfl
  rcases h : search_loop res 0 table_head (FirstProduct.str "") with ⟨t, fp⟩
  rw [h] at ht
  simp only [List.drop_zero] at ht
  simp only [search_done, h, flash_message_results]
  by_cases hne : neEmptyString fp = true
  · simp [hne, update_form_data, ht, List.enum]
  · simp [hne, ht, List.enum]

/-- A non-empty response writes its first record to the form. -/
theorem search_done_form_cons (first : ProductObj) (rest : List ProductObj) (pg : Page) :
    (search_done (first :: rest) pg).form = (update_form_data first pg).form := by
  have hstep := search_loop_step (first :: rest) 0 table_head (FirstProduct.str "") (by simp)
  have hfp := search_loop_first (first :: rest) ((first :: rest).length - 1) 1
    (table_head ++ row_text 0 first) (FirstProduct.obj first) rfl (by omega)
  simp only [List.getElem_cons_zero, beq_self_eq_true, if_true, Nat.zero_add] at hstep
  rcases h : search_loop (first :: rest) 0 table_head (FirstProduct.str "") with ⟨t, fp⟩
  rw [hstep] at h
  rw [h] at hfp
  simp only at hfp
  subst hfp
  simp only [search_done, hstep, h, flash_message_form]
  simp [neEmptyString, FirstProduct.attrs, update_form_data]

/-- An empty response leaves the form alone. -/
theorem search_done_form_nil (pg : Page) : (search_done [] pg).form = pg.form := by
  have h := search_loop_stop [] 0 table_head (FirstProduct.str "") (by simp)
  simp only [search_done, h, flash_message_form]
  simp [neEmptyString]

/-- A string without `&` is a single piece. -/
theorem pieces_single (a : String) (h : '&' ∉ a.toList) : pieces a = [a.toList] := by
  unfold pieces List.splitOn
  apply List.splitOnP_eq_single
  intro x hx hxe
  rw [eq_of_beq hxe] at hx
  exact h hx

/-- The first piece of a string ends at the first `&`. -/
theorem pieces_cons (a b : String) (h : '&' ∉ a.toList) :
    pieces (a ++ ("&" ++ b)) = a.toList :: pieces b := by
  unfold pieces List.splitOn
  have hl : (a ++ ("&" ++ b)).toList = a.toList ++ '&' :: b.toList := rfl
  rw [hl]
  apply List.splitOnP_first
  · intro x hx hxe
    rw [eq_of_beq hxe] at hx
    exact h hx
  · simp

/-- The pair of name has no `&` when its value has none. -/
theorem amp_free_name (v : String) (h : '&' ∉ v.toList) : '&' ∉ ("name=" ++ v).toList := by
  have hl : ("name=" ++ v).toList = 'n' :: 'a' :: 'm' :: 'e' :: '=' :: v.toList := rfl
  rw [hl]
  simpa using h

/-- The pair of category has no `&` when its value has none. -/
theorem amp_free_category (v : String) (h : '&' ∉ v.toList) :
    '&' ∉ ("category=" ++ v).toList := by
  have hl : ("category=" ++ v).toList =
      'c' :: 'a' :: 't' :: 'e' :: 'g' :: 'o' :: 'r' :: 'y' :: '=' :: v.toList := rfl
  rw [hl]
  simpa using h

/-- The pair of price has no `&` when its value has none. -/
theorem amp_free_price (v : String) (h : '&' ∉ v.toList) : '&' ∉ ("price=" ++ v).toList := by
  have hl : ("price=" ++ v).toList = 'p' :: 'r' :: 'i' :: 'c' :: 'e' :: '=' :: v.toList := rfl
  rw [hl]
  simpa using h

/-- Key of a name pair. -/
theorem keyOf_name (l : List Char) :
    keyOf ('n' :: 'a' :: 'm' :: 'e' :: '=' :: l) = ['n', 'a', 'm', 'e'] := rfl

/-- Key of a category pair. -/
theorem keyOf_category (l : List Char) :
    keyOf ('c' :: 'a' :: 't' :: 'e' :: 'g' :: 'o' :: 'r' :: 'y' :: '=' :: l) =
      ['c', 'a', 't', 'e', 'g', 'o', 'r', 'y'] := rfl

/-- Key of a price pair. -/
theorem keyOf_price (l : List Char) :
    keyOf ('p' :: 'r' :: 'i' :: 'c' :: 'e' :: '=' :: l) = ['p', 'r', 'i', 'c', 'e'] := rfl

/-- Value of a name pair. -/
theorem valueOf_name (l : List Char) : valueOf ('n' :: 'a' :: 'm' :: 'e' :: '=' :: l) = l := rfl

/-- Value of a category pair. -/
theorem valueOf_category (l : List Char) :
    valueOf ('c' :: 'a' :: 't' :: 'e' :: 'g' :: 'o' :: 'r' :: 'y' :: '=' :: l) = l := rfl

/-- Value of a price pair. -/
theorem valueOf_price (l : List Char) :
    valueOf ('p' :: 'r' :: 'i' :: 'c' :: 'e' :: '=' :: l) = l := rfl

/-- Reading a query string back gives the triple it was built from, when no value contains `&`. -/
theorem parseQuery_queryString (n c p : String) (hn : '&' ∉ n.toList) (hc : '&' ∉ c.toList)
    (hp : '&' ∉ p.toList) : parseQuery (queryString n c p) = (n, c, p) := by
  have an := amp_free_name n hn
  have ac := amp_free_category c hc
  have ap := amp_free_price p hp
  have e1 : ∀ v : String, "&category=" ++ v = "&" ++ ("category=" ++ v) :=
    fun v => (amp_category v).symm
  have e2 : ∀ v : String, "&price=" ++ v = "&" ++ ("price=" ++ v) :=
    fun v => (amp_price v).symm
  by_cases h1 : n = "" <;> by_cases h2 : c = "" <;> by_cases h3 : p = ""
  · subst h1 h2 h3; decide
  · have hq : queryString n c p = "price=" ++ p := by simp [queryString, truthy, h1, h2, h3]
    rw [hq]
    simp [parseQuery, lookupFilter, pieces_single _ ap, keyOf_name, keyOf_category,
      keyOf_price, valueOf_name, valueOf_category, valueOf_price, h1, h2]
  · have hq : queryString n c p = "category=" ++ c := by simp [queryString, truthy, h1, h2, h3]
    rw [hq]
    simp [parseQuery, lookupFilter, pieces_single _ ac, keyOf_name, keyOf_category,
      keyOf_price, valueOf_name, valueOf_category, valueOf_price, h1, h3]
  · have hq : queryString n c p = ("category=" ++ c) ++ ("&" ++ ("price=" ++ p)) := by
      simp [queryString, truthy, h1, h2, h3, length_category, e2]
    rw [hq]
    simp [parseQuery, lookupFilter, pieces_cons _ _ ac, pieces_single _ ap, keyOf_name,
      keyOf_category, keyOf_price, valueOf_name, valueOf_category, valueOf_price, h1]
  · have hq : queryString n c p = "name=" ++ n := by simp [queryString, truthy, h1, h2, h3]
    rw [hq]
    simp [parseQuery, lookupFilter, pieces_single _ an, keyOf_name, keyOf_category,
      keyOf_price, valueOf_name, valueOf_category, valueOf_price, h2, h3]
  · have hq : queryString n c p = ("name=" ++ n) ++ ("&" ++ ("price=" ++ p)) := by
      simp [queryString, truthy, h1, h2, h3, length_name, e2]
    rw [hq]
    simp [parseQuery, lookupFilter, pieces_cons _ _ an, pieces_single _ ap, keyOf_name,
      keyOf_category, keyOf_price, valueOf_name, valueOf_category, valueOf_price, h2]
  · have hq : queryString n c p = ("name=" ++ n) ++ ("&" ++ ("category=" ++ c)) := by
      simp [queryString, truthy, h1, h2, h3, length_name, e1]
    rw [hq]
    simp [parseQuery, lookupFilter, pieces_cons _ _ an, pieces_single _ ac, keyOf_name,
      keyOf_category, keyOf_price, valueOf_name, valueOf_category, valueOf_price, h3]
  · have hq : queryString n c p =
        ("name=" ++ n) ++ ("&" ++ (("category=" ++ c) ++ ("&" ++ ("price=" ++ p)))) := by
      simp [queryString, truthy, h1, h2, h3, length_name, e1, e2, String.append_assoc]
    rw [hq]
    simp [parseQuery, lookupFilter, pieces_cons _ _ an, pieces_cons _ _ ac,
      pieces_single _ ap, keyOf_name, keyOf_category, keyOf_price, valueOf_name,
      valueOf_category, valueOf_price]

/-! ## Claims -/

/-- C1: for every filter triple the query string of the search handler is the `&`-join,
in the order name, category, price, of `key=value` for exactly the keys with a non-empty
value; it is empty when all three are empty, and name Shoes with price 10 and no
category builds `name=Shoes&price=10`. -/
theorem queryString_joins_present_pairs (name category price : String) :
    queryString name category price = joinedPairs name category price ∧
      (∀ pg : Page, search_url pg = "/products?" ++
        joinedPairs pg.form.product_name pg.form.product_category pg.form.product_price) ∧
      queryString "" "" "" = "" ∧
      queryString "Shoes" "" "10" = "name=Shoes&price=10" := by
  refine ⟨queryString_eq_joinedPairs name category price, ?_, by decide, by decide⟩
  intro pg
  simp only [search_url]
  rw [queryString_eq_joinedPairs]

/-- C2 (counterexample): a Product whose description is `line1`, line feed, `line2` is
not read back as written: the input of the description returns `line1line2`. -/
theorem update_form_data_read_back_two_lines :
    update_data (update_form_data twoLineProduct.toObj mugPage) ≠ twoLineProduct.toData ∧
      (update_form_data twoLineProduct.toObj mugPage).form.product_desc = "line1line2" := by
  decide

/-- C2 (amended): writing a Product whose eleven fields are strings without line feed
and carriage return to the form with `update_form_data`, and reading the form back with
the eleven reads of the update handler, gives the Product back field for field,
whatever the form held before. -/
theorem update_form_data_read_back (p : Product) (pg : Page) (h : p.singleLine = true) :
    update_data (update_form_data p.toObj pg) = p.toData :=
  formFields_update_product p pg h

/-- C2 (amended) at the Product `shirtProduct` and the page `mugPage`. -/
theorem update_form_data_read_back_witness :
    shirtProduct.singleLine = true ∧
      update_data (update_form_data shirtProduct.toObj mugPage) = shirtProduct.toData :=
  ⟨by decide, update_form_data_read_back shirtProduct mugPage (by decide)⟩

/-- C5 (counterexample): after a successful create whose response has the description
`line1`, line feed, `line2`, the form fields are not the fields of the response: the
description field holds `line1line2`. -/
theorem create_done_two_lines :
    formFields (create_done twoLineProduct.toObj draftPage).form ≠ twoLineProduct.toData ∧
      (create_done twoLineProduct.toObj draftPage).form.product_desc = "line1line2" := by
  decide

/-- C5 (amended): after the completion handler of a successful create whose response
attributes are strings without line feed and carriage return (or absent), each form
field holds the corresponding string of the response (the empty string for an absent
one) and the flash area holds exactly `Success`, replacing what it held; a draft without
id and the response with id 42 and name Mug end with id 42, name Mug. -/
theorem create_done_form_and_flash (r : SparseProduct) (pg : Page)
    (h : r.singleLine = true) :
    formFields (create_done r.toObj pg).form = r.fields ∧
      (create_done r.toObj pg).flash_message = "Success" ∧
      (create_done mugSparse.toObj draftPage).form.product_id = "42" ∧
      (create_done mugSparse.toObj draftPage).form.product_name = "Mug" ∧
      (create_done mugSparse.toObj draftPage).flash_message = "Success" := by
  refine ⟨?_, flash_message_slot _ _, by decide, by decide, flash_message_slot _ _⟩
  simp only [create_done, flash_message_form]
  exact formFields_update_sparse r pg h

/-- C5 (amended) at the response `mugSparse` and the page `draftPage`. -/
theorem create_done_form_and_flash_witness :
    mugSparse.singleLine = true ∧
      (formFields (create_done mugSparse.toObj draftPage).form = mugSparse.fields ∧
        (create_done mugSparse.toObj draftPage).flash_message = "Success" ∧
        (create_done mugSparse.toObj draftPage).form.product_id = "42" ∧
        (create_done mugSparse.toObj draftPage).form.product_name = "Mug" ∧
        (create_done mugSparse.toObj draftPage).flash_message = "Success") :=
  ⟨by decide, create_done_form_and_flash mugSparse draftPage (by decide)⟩

/-- C6: the completion handler of a failed delete sets the flash area to exactly
`Server error!`, whatever the error response holds, and leaves the eleven form fields
as they were. -/
theorem delete_fail_flash_only (res : ErrorResponse) (pg : Page) :
    (delete_fail res pg).flash_message = "Server error!" ∧
      (delete_fail res pg).form = pg.form :=
  ⟨flash_message_slot _ _, rfl⟩

/-- C7 (the code at the failing input): with `res` unbound, as the file leaves it, the
completion handler of a successful delete stops with a ReferenceError at line 24: the
page is unchanged, the name field still holds Mug and the flash area does not hold
`Product has been Deleted!`. -/
theorem delete_done_unbound_res :
    delete_done none .undefined mugPage = (.referenceError "res", mugPage) ∧
      (delete_done none .undefined mugPage).2.form.product_name = "Mug" ∧
      (delete_done none .undefined mugPage).2.flash_message ≠ "Product has been Deleted!" := by
  refine ⟨rfl, rfl, ?_⟩
  decide

/-- C8 (counterexample): the body of the create request does not carry all eleven
fields: for the form of `mugPage` the pair of `modified_date` is not in it. -/
theorem create_data_lacks_modified_date :
    ¬ (∀ kv ∈ formFields mugPage.form, kv ∈ create_data mugPage) := by
  decide

/-- C8 (amended): the body of the create request carries the nine fields id, name,
desc, price, category, inventory, discount, like, created_date, each with exactly the
string the form field holds; it has no `modified_date` and no `deleted_date`. -/
theorem create_body_nine_fields (pg : Page) :
    (create_click pg).1.data =
        some [("id", pg.form.product_id), ("name", pg.form.product_name),
          ("desc", pg.form.product_desc), ("price", pg.form.product_price),
          ("category", pg.form.product_category), ("inventory", pg.form.product_inventory),
          ("discount", pg.form.product_discount), ("like", pg.form.product_like),
          ("created_date", pg.form.product_created_date)] ∧
      create_data pg = (formFields pg.form).take 9 ∧
      (create_data pg).lookup "modified_date" = none ∧
      (create_data pg).lookup "deleted_date" = none := by
  refine ⟨rfl, rfl, ?_, ?_⟩ <;> simp [create_data, List.lookup]

/-- C9: the query builder embeds the values verbatim and is not injective: the triples
(`a&price=1`, empty, empty) and (`a`, empty, `1`) differ and both build
`name=a&price=1`. -/
theorem queryString_not_injective :
    queryOf tripleWithAmp = "name=a&price=1" ∧
      queryOf tripleSplit = "name=a&price=1" ∧
      tripleWithAmp ≠ tripleSplit ∧
      ¬ Function.Injective queryOf := by
  have h1 : queryOf tripleWithAmp = "name=a&price=1" := by decide
  have h2 : queryOf tripleSplit = "name=a&price=1" := by decide
  have h3 : tripleWithAmp ≠ tripleSplit := by decide
  exact ⟨h1, h2, h3, fun hinj => h3 (hinj (h1.trans h2.symm))⟩

/-- C3 (the code at the failing input): for the response holding the one record
`shirtProduct` the handler writes one row with id `row_0` and the eleven values in
Product field order, but in front of desc, price and the three dates it writes the text
`td>` where the cell opener `<td>` belongs, so the markup is not the table of eleven-cell
rows that the claim describes. -/
theorem search_done_row_lacks_cell_openers :
    (search_done [shirtProduct.toObj] mugPage).search_results =
        table_head ++ row_text 0 shirtProduct.toObj ++ "</tbody></table>" ∧
      row_text 0 shirtProduct.toObj =
        "<tr id=\"row_0\"><td>1</td><td>Shirt</td>td>cotton</td>td>20</td><td>Men</td>" ++
          "<td>5</td><td>0</td><td>3</td>td>2023-03-01</td>td>2023-04-01</td>td></td></tr>" ∧
      rowMarkup 0 shirtProduct.toObj =
        "<tr id=\"row_0\"><td>1</td><td>Shirt</td><td>cotton</td><td>20</td><td>Men</td>" ++
          "<td>5</td><td>0</td><td>3</td><td>2023-03-01</td><td>2023-04-01</td><td></td></tr>" ∧
      (search_done [shirtProduct.toObj] mugPage).search_results ≠
        tableMarkup [shirtProduct.toObj] := by
  have hres : (search_done [shirtProduct.toObj] mugPage).search_results =
      table_head ++ row_text 0 shirtProduct.toObj ++ "</tbody></table>" := by
    rw [search_done_results]
    simp [List.enum, List.enumFrom, join_cons, String.join]
  have hrow : row_text 0 shirtProduct.toObj ≠ rowMarkup 0 shirtProduct.toObj := by decide
  refine ⟨hres, by decide, by decide, ?_⟩
  rw [hres]
  intro heq
  apply hrow
  have hd := congrArg String.data heq
  simp only [tableMarkup, List.enum, List.enumFrom, List.map, join_cons, String.join,
    List.foldl, String.data_append, String.append_empty, List.append_assoc] at hd
  exact String.ext (List.append_cancel_right (List.append_cancel_left hd))

/-- C4 (counterexample): after a successful search whose first record has the
description `line1`, line feed, `line2`, the description field of the form does not
hold that string: it holds `line1line2`. -/
theorem search_done_form_two_lines :
    (search_done [twoLineProduct.toObj] mugPage).form.product_desc ≠ twoLineProduct.desc ∧
      (search_done [twoLineProduct.toObj] mugPage).form.product_desc = "line1line2" := by
  rw [search_done_form_cons]
  decide

/-- C4 (amended): after a successful search with a non-empty response whose first
record has attributes that are strings without line feed and carriage return (or
absent), each of the eleven form fields holds the corresponding string of that record
(the empty string for an absent attribute), whatever the form held before; after one
with an empty response the eleven form fields are as they were. -/
theorem search_done_form (first : SparseProduct) (rest : List ProductObj) (pg : Page)
    (h : first.singleLine = true) :
    formFields (search_done (first.toObj :: rest) pg).form = first.fields ∧
      (search_done [] pg).form = pg.form := by
  refine ⟨?_, search_done_form_nil pg⟩
  rw [search_done_form_cons]
  exact formFields_update_sparse first pg h

/-- C4 (amended) at the response holding `shirtSparse` alone and the page `mugPage`. -/
theorem search_done_form_witness :
    shirtSparse.singleLine = true ∧
      (formFields (search_done (shirtSparse.toObj :: []) mugPage).form = shirtSparse.fields ∧
        (search_done [] mugPage).form = mugPage.form) :=
  ⟨by decide, search_done_form shirtSparse [] mugPage (by decide)⟩

/-- C10: on filter triples none of whose values contains `&` the query builder is
injective: two such triples that build the same query string are equal, and the
triple is read back from the string by splitting on `&` and on the first `=` of each
piece, a missing key giving the empty value. -/
theorem queryString_injective_without_amp (n1 c1 p1 n2 c2 p2 : String)
    (hn1 : '&' ∉ n1.toList) (hc1 : '&' ∉ c1.toList) (hp1 : '&' ∉ p1.toList)
    (hn2 : '&' ∉ n2.toList) (hc2 : '&' ∉ c2.toList) (hp2 : '&' ∉ p2.toList)
    (heq : queryString n1 c1 p1 = queryString n2 c2 p2) :
    (n1, c1, p1) = (n2, c2, p2) ∧ parseQuery (queryString n1 c1 p1) = (n1, c1, p1) := by
  have r1 := parseQuery_queryString n1 c1 p1 hn1 hc1 hp1
  have r2 := parseQuery_queryString n2 c2 p2 hn2 hc2 hp2
  refine ⟨?_, r1⟩
  rw [← r1, ← r2, heq]

/-- C10 at the triples (Shoes, empty, 10) and (Shoes, empty, 10). -/
theorem queryString_injective_without_amp_witness :
    ('&' ∉ "Shoes".toList ∧ '&' ∉ "".toList ∧ '&' ∉ "10".toList ∧
      queryString "Shoes" "" "10" = queryString "Shoes" "" "10") ∧
      (("Shoes", "", "10") = ("Shoes", "", "10") ∧
        parseQuery (queryString "Shoes" "" "10") = ("Shoes", "", "10")) :=
  ⟨⟨by decide, by decide, by decide, rfl⟩,
    queryString_injective_without_amp "Shoes" "" "10" "Shoes" "" "10" (by decide) (by decide)
      (by decide) (by decide) (by decide) (by decide) rfl⟩

end RestApi
